import Mathlib

/-!
Shallow embedding of the artissist/logger TypeScript client core
(Logger, ConsoleAdapter, FileAdapter, EmojiResolver, ContextManager,
LoggerFactory) from src/clients/typescript/src.  JavaScript nullable
values (`undefined` / `null`) are modelled with `Option`; the tri-state
`boolean | null | undefined` of `LogEntry.includeEmoji` gets its own
type.  Randomness (`Math.random`) is modelled by an explicit stream of
hex digits.  Host-only concerns (actual console I/O, file streams,
timestamp rendering) are represented by the data handed to them.
-/

namespace ArtissistLogger

/-- Log levels, from types.ts (`LogLevel`). -/
inductive LogLevel
  | TRACE
  | DEBUG
  | INFO
  | WARN
  | ERROR
  | FATAL
deriving DecidableEq, Repr

/-- Numeric order shared by `ConsoleAdapter.LOG_LEVEL_ORDER` and
`FileAdapter.LOG_LEVEL_ORDER` (both map TRACE..FATAL to 0..5). -/
def levelOrder : LogLevel → Nat
  | .TRACE => 0
  | .DEBUG => 1
  | .INFO => 2
  | .WARN => 3
  | .ERROR => 4
  | .FATAL => 5

/-- Truthiness of a possibly-absent JavaScript string: `undefined`,
`null` and the empty string are falsy. -/
def strTruthy : Option String → Bool
  | none => false
  | some s => s ≠ ""

/-- The tri-state type of `LogEntry.includeEmoji : boolean | null | undefined`. -/
inductive TriBool
  | absent
  | null
  | val (b : Bool)
deriving DecidableEq, Repr

/-- JavaScript `x ?? d` for a tri-state boolean: `null` and `undefined`
fall through to the default. -/
def TriBool.resolve : TriBool → Bool → Bool
  | .val b, _ => b
  | _, d => d

/-- EmojiMapping record from types.ts. -/
structure EmojiMapping where
  emoji : String
  description : String
  isDefault : Bool := false
deriving DecidableEq, Repr

/-- The 25 predefined event keys (types.ts `LogEvent`). -/
inductive LogEvent
  | SYSTEM_START
  | SYSTEM_STOP
  | USER_AUTH
  | USER_AUTHZ
  | PROJECT_LIFECYCLE
  | DATABASE_OPERATION
  | API_REQUEST
  | PERFORMANCE_METRIC
  | ERROR_OCCURRED
  | WARNING_ISSUED
  | CONFIG_CHANGE
  | ANALYTICS_EVENT
  | AGENT_PROCESSING
  | CONVERSATION_EVENT
  | ASSET_PROCESSING
  | INSPIRATION_EVENT
  | INFRASTRUCTURE_DEPLOY
  | BUSINESS_METRIC
  | SEARCH_OPERATION
  | BACKGROUND_JOB
  | NOTIFICATION_SENT
  | SECURITY_EVENT
  | SCHEDULED_TASK
  | EXTERNAL_SERVICE
  | AUDIT_TRAIL
deriving DecidableEq, Repr

/-- String-keyed lookup of the predefined events; mirrors
`Object.keys(DEFAULT_EMOJI_MAPPINGS).includes(event)` in emoji.ts
(the table is keyed by exactly the 25 `LogEvent` names). -/
def logEventOfString : String → Option LogEvent
  | "SYSTEM_START" => some .SYSTEM_START
  | "SYSTEM_STOP" => some .SYSTEM_STOP
  | "USER_AUTH" => some .USER_AUTH
  | "USER_AUTHZ" => some .USER_AUTHZ
  | "PROJECT_LIFECYCLE" => some .PROJECT_LIFECYCLE
  | "DATABASE_OPERATION" => some .DATABASE_OPERATION
  | "API_REQUEST" => some .API_REQUEST
  | "PERFORMANCE_METRIC" => some .PERFORMANCE_METRIC
  | "ERROR_OCCURRED" => some .ERROR_OCCURRED
  | "WARNING_ISSUED" => some .WARNING_ISSUED
  | "CONFIG_CHANGE" => some .CONFIG_CHANGE
  | "ANALYTICS_EVENT" => some .ANALYTICS_EVENT
  | "AGENT_PROCESSING" => some .AGENT_PROCESSING
  | "CONVERSATION_EVENT" => some .CONVERSATION_EVENT
  | "ASSET_PROCESSING" => some .ASSET_PROCESSING
  | "INSPIRATION_EVENT" => some .INSPIRATION_EVENT
  | "INFRASTRUCTURE_DEPLOY" => some .INFRASTRUCTURE_DEPLOY
  | "BUSINESS_METRIC" => some .BUSINESS_METRIC
  | "SEARCH_OPERATION" => some .SEARCH_OPERATION
  | "BACKGROUND_JOB" => some .BACKGROUND_JOB
  | "NOTIFICATION_SENT" => some .NOTIFICATION_SENT
  | "SECURITY_EVENT" => some .SECURITY_EVENT
  | "SCHEDULED_TASK" => some .SCHEDULED_TASK
  | "EXTERNAL_SERVICE" => some .EXTERNAL_SERVICE
  | "AUDIT_TRAIL" => some .AUDIT_TRAIL
  | _ => none

/-- Modelled from the spec: the default emoji table
(`DEFAULT_EMOJI_MAPPINGS = TYPED_EMOJI_MAPPINGS`); the generated module
`generated-types.ts` is produced by the build and is not in the source
tree.  One entry per predefined event, per the spec's EmojiMapping
lifecycle; values follow the standardized table recorded in
emoji.ts (`LEGACY_EMOJI_MAPPINGS` with the noted standardizations) and
pinned by the unit tests (for example SYSTEM_START resolves to 🚀). -/
def defaultEmojiMappings : LogEvent → EmojiMapping
  | .SYSTEM_START => { emoji := "🚀", description := "System startup or initialization", isDefault := true }
  | .SYSTEM_STOP => { emoji := "🛑", description := "System shutdown or termination", isDefault := true }
  | .USER_AUTH => { emoji := "👤", description := "User authentication events", isDefault := true }
  | .USER_AUTHZ => { emoji := "🔐", description := "Authorization and permission events", isDefault := true }
  | .PROJECT_LIFECYCLE => { emoji := "📁", description := "Project lifecycle events", isDefault := true }
  | .DATABASE_OPERATION => { emoji := "💾", description := "Database operations", isDefault := true }
  | .API_REQUEST => { emoji := "🔄", description := "API request/response events", isDefault := true }
  | .PERFORMANCE_METRIC => { emoji := "⚡", description := "Performance metrics and timing", isDefault := true }
  | .ERROR_OCCURRED => { emoji := "🐛", description := "Error conditions and exceptions", isDefault := true }
  | .WARNING_ISSUED => { emoji := "⚠️", description := "Warning conditions", isDefault := true }
  | .CONFIG_CHANGE => { emoji := "🔧", description := "Configuration changes", isDefault := true }
  | .ANALYTICS_EVENT => { emoji := "📊", description := "Analytics and tracking events", isDefault := true }
  | .AGENT_PROCESSING => { emoji := "🤖", description := "Agent processing events", isDefault := true }
  | .CONVERSATION_EVENT => { emoji := "💬", description := "Conversation and interaction events", isDefault := true }
  | .ASSET_PROCESSING => { emoji := "📸", description := "Asset upload and processing", isDefault := true }
  | .INSPIRATION_EVENT => { emoji := "🎨", description := "Inspiration capture events", isDefault := true }
  | .INFRASTRUCTURE_DEPLOY => { emoji := "🏗️", description := "Infrastructure deployment events", isDefault := true }
  | .BUSINESS_METRIC => { emoji := "📈", description := "Business metric events", isDefault := true }
  | .SEARCH_OPERATION => { emoji := "🔍", description := "Search and discovery events", isDefault := true }
  | .BACKGROUND_JOB => { emoji := "🔄", description := "Background job processing", isDefault := true }
  | .NOTIFICATION_SENT => { emoji := "📧", description := "Notification events", isDefault := true }
  | .SECURITY_EVENT => { emoji := "🔐", description := "Security-related events", isDefault := true }
  | .SCHEDULED_TASK => { emoji := "⏰", description := "Scheduled task execution", isDefault := true }
  | .EXTERNAL_SERVICE => { emoji := "🌐", description := "External service integration", isDefault := true }
  | .AUDIT_TRAIL => { emoji := "📋", description := "Audit trail events", isDefault := true }

/-- State of an `EmojiResolver` instance (emoji.ts): the `enabled` flag
and the instance-scoped custom-mapping table. -/
structure EmojiResolver where
  enabled : Bool := false
  customMappings : List (String × EmojiMapping) := []
deriving DecidableEq, Repr

/-- Lookup in the custom table, `this.customMappings[event]`
(mapping objects are always truthy). -/
def EmojiResolver.findCustom (r : EmojiResolver) (event : String) : Option EmojiMapping :=
  (r.customMappings.find? fun p => p.1 == event).map fun p => p.2

/-- The runtime value passed as the `event` argument of `getEmoji`:
a string, `null`, `undefined`, or some other non-string value
(`typeof event === 'string'` guards in emoji.ts). -/
inductive EventInput
  | str (s : String)
  | jsNull
  | jsUndefined
  | nonString
deriving DecidableEq, Repr

/-- `EmojiResolver.getEmoji` (emoji.ts lines 104-125): empty string when
disabled; otherwise custom mappings first, then the default table keyed
by the predefined event names, then the fallback or empty string.
Non-string input fails both `typeof` guards and reaches the fallback. -/
def EmojiResolver.getEmoji (r : EmojiResolver) (event : EventInput)
    (fallbackEmoji : Option String := none) : String :=
  if !r.enabled then ""
  else
    match event with
    | .str s =>
      match r.findCustom s with
      | some m => m.emoji
      | none =>
        match logEventOfString s with
        | some ev => (defaultEmojiMappings ev).emoji
        | none => fallbackEmoji.getD ""
    | _ => fallbackEmoji.getD ""

/-- `EmojiResolver.formatMessage` (emoji.ts lines 150-157): the message
unchanged when the resolver is disabled or the event is falsy; otherwise
the resolved emoji and a space are prepended when the emoji is
non-empty.  The adapters pass `entry.event`, a possibly-absent string. -/
def EmojiResolver.formatMessage (r : EmojiResolver) (message : String)
    (event : Option String := none) (fallbackEmoji : Option String := none) : String :=
  if !r.enabled || !strTruthy event then message
  else
    let emoji := r.getEmoji (.str (event.getD "")) fallbackEmoji
    if emoji ≠ "" then emoji ++ " " ++ message else message

/-- `EmojiResolver.setEnabled` (emoji.ts lines 73-75). -/
def EmojiResolver.setEnabled (r : EmojiResolver) (enabled : Bool) : EmojiResolver :=
  { r with enabled := enabled }

/-- LoggingContext record from types.ts; every field is optional. -/
structure LoggingContext where
  correlationId : Option String := none
  traceId : Option String := none
  spanId : Option String := none
  userId : Option String := none
  sessionId : Option String := none
  requestId : Option String := none
  parentCorrelationId : Option String := none
deriving DecidableEq, Repr

/-- JavaScript object spread of two contexts: fields present in the
second override the first (`ContextManager.mergeContexts` and the
inline spreads in context.ts and logger.ts). -/
def LoggingContext.merge (a b : LoggingContext) : LoggingContext where
  correlationId := b.correlationId <|> a.correlationId
  traceId := b.traceId <|> a.traceId
  spanId := b.spanId <|> a.spanId
  userId := b.userId <|> a.userId
  sessionId := b.sessionId <|> a.sessionId
  requestId := b.requestId <|> a.requestId
  parentCorrelationId := b.parentCorrelationId <|> a.parentCorrelationId

/-- The six context-propagation headers ever produced or consumed by
`ContextManager.toHeaders` / `extractFromHeaders` (context.ts).  A field
holds `some v` when the header key is present with value `v`. -/
structure ContextHeaders where
  xCorrelationId : Option String := none
  xTraceId : Option String := none
  xSpanId : Option String := none
  xRequestId : Option String := none
  xUserId : Option String := none
  xSessionId : Option String := none
deriving DecidableEq, Repr

/-- `ContextManager.toHeaders` (context.ts lines 158-181): each header is
set only when the corresponding context field is truthy. -/
def ContextManager.toHeaders (context : LoggingContext) : ContextHeaders where
  xCorrelationId := if strTruthy context.correlationId then context.correlationId else none
  xTraceId := if strTruthy context.traceId then context.traceId else none
  xSpanId := if strTruthy context.spanId then context.spanId else none
  xRequestId := if strTruthy context.requestId then context.requestId else none
  xUserId := if strTruthy context.userId then context.userId else none
  xSessionId := if strTruthy context.sessionId then context.sessionId else none

/-- `ContextManager.extractFromHeaders` (context.ts lines 129-153): each
context field is set only when the corresponding header is truthy;
`parentCorrelationId` is never extracted. -/
def ContextManager.extractFromHeaders (headers : ContextHeaders) : LoggingContext where
  correlationId := if strTruthy headers.xCorrelationId then headers.xCorrelationId else none
  traceId := if strTruthy headers.xTraceId then headers.xTraceId else none
  spanId := if strTruthy headers.xSpanId then headers.xSpanId else none
  requestId := if strTruthy headers.xRequestId then headers.xRequestId else none
  userId := if strTruthy headers.xUserId then headers.xUserId else none
  sessionId := if strTruthy headers.xSessionId then headers.xSessionId else none
  parentCorrelationId := none

/-- Instance state of a `ContextManager` (context.ts): the mutable
current context and the stack of saved contexts.  The stack grows at the
head (JavaScript push/pop act on the same end of the array). -/
structure ContextManager where
  currentContext : LoggingContext := {}
  contextStack : List LoggingContext := []
deriving DecidableEq, Repr

/-- `ContextManager.setContext` (context.ts lines 50-52). -/
def ContextManager.setContext (cm : ContextManager) (context : LoggingContext) : ContextManager :=
  { cm with currentContext := cm.currentContext.merge context }

/-- `ContextManager.pushContext` (context.ts lines 72-79): saves a copy of
the current context, then replaces it by the merge with `newContext`,
with `parentCorrelationId` overwritten by the previous correlation ID
(explicit property, so it wins over both spreads even when absent). -/
def ContextManager.pushContext (cm : ContextManager)
    (newContext : LoggingContext := {}) : ContextManager where
  currentContext :=
    { cm.currentContext.merge newContext with
        parentCorrelationId := cm.currentContext.correlationId }
  contextStack := cm.currentContext :: cm.contextStack

/-- `ContextManager.popContext` (context.ts lines 84-90): restores the
most recently saved context; returns `undefined` and changes nothing
when the stack is empty. -/
def ContextManager.popContext (cm : ContextManager) :
    Option LoggingContext × ContextManager :=
  match cm.contextStack with
  | [] => (none, cm)
  | previousContext :: rest =>
    (some previousContext, { currentContext := previousContext, contextStack := rest })

/-- ErrorContext record from types.ts (nested inside ErrorDetails). The
untyped `data` payload is carried opaquely and never inspected by the
core, so it is elided here. -/
structure ErrorContext where
  file : Option String := none
  line : Option Nat := none
  functionName : Option String := none
deriving DecidableEq, Repr

/-- ErrorDetails record from types.ts: `type` and `message` required. -/
structure ErrorDetails where
  type : String
  message : String
  stackTrace : Option String := none
  code : Option String := none
  context : Option ErrorContext := none
deriving DecidableEq, Repr

/-- Runtime shape of one property of a plain object probed with
`typeof v === 'string'` in `Logger.sanitizeError`. -/
inductive JsStrField
  | missing
  | str (s : String)
  | notStr
deriving DecidableEq, Repr

/-- Runtime shape of the `context` property, probed with
`typeof v === 'object' && v !== null`. -/
inductive JsObjField
  | missing
  | obj (c : ErrorContext)
  | nullValue
  | notObj
deriving DecidableEq, Repr

/-- A plain (non-Error) object passed as an error value, as seen by the
property probes of `Logger.sanitizeError`. -/
structure RawErrorObject where
  typeField : JsStrField := .missing
  messageField : JsStrField := .missing
  stackTraceField : JsStrField := .missing
  codeField : JsStrField := .missing
  contextField : JsObjField := .missing
deriving DecidableEq, Repr

/-- The classification of arbitrary runtime values reaching
`Logger.sanitizeError` (logger.ts lines 128-181): `null`, `undefined`,
a native `Error` instance (constructor name, message, optional stack),
a string, a plain object, or some other primitive.  The `truthy` flag on
other primitives records their JavaScript truthiness, which matters
only to the `data?.error ?` guard in `createLogEntry`. -/
inductive ErrorInput
  | jsNull
  | jsUndefined
  | jsErrorInstance (ctorName : String) (message : String) (stack : Option String)
  | jsString (s : String)
  | jsObject (o : RawErrorObject)
  | otherPrim (truthy : Bool)
deriving DecidableEq, Repr

/-- JavaScript truthiness of an error value (for the
`data?.error ? ... : undefined` guard in `createLogEntry`). -/
def ErrorInput.jsTruthy : ErrorInput → Bool
  | .jsNull => false
  | .jsUndefined => false
  | .jsErrorInstance _ _ _ => true
  | .jsString s => s ≠ ""
  | .jsObject _ => true
  | .otherPrim t => t

/-- Projection used for the optional string fields kept by the
sanitizer: only a string value survives. -/
def JsStrField.toOption : JsStrField → Option String
  | .str s => some s
  | _ => none

/-- Projection for the optional `context` field: only a non-null object
survives. -/
def JsObjField.toOption : JsObjField → Option ErrorContext
  | .obj c => some c
  | _ => none

/-- `Logger.sanitizeError` (logger.ts lines 128-181): `null`/`undefined`
give `undefined`; an `Error` instance gives constructor name, message
and stack; a string gives type `Unknown`; an object with string `type`
and `message` passes through keeping only its valid optional fields;
anything else gives `undefined`.  The embedding is a total function:
no input shape can make it throw. -/
def Logger.sanitizeError : ErrorInput → Option ErrorDetails
  | .jsNull => none
  | .jsUndefined => none
  | .jsErrorInstance ctorName message stack =>
    some { type := ctorName, message := message, stackTrace := stack }
  | .jsString s => some { type := "Unknown", message := s }
  | .jsObject o =>
    match o.typeField, o.messageField with
    | .str t, .str m =>
      some { type := t, message := m,
             stackTrace := o.stackTraceField.toOption,
             code := o.codeField.toOption,
             context := o.contextField.toOption }
    | _, _ => none
  | .otherPrim _ => none

/-- LogMetadata record from types.ts; carried opaquely through the
logging path (its `data` payload and custom mappings are never
interpreted by the Logger or adapter code under proof). -/
structure LogMetadata where
  component : Option String := none
  operation : Option String := none
  version : Option String := none
deriving DecidableEq, Repr

/-- PerformanceMetrics record from types.ts.  `cpuPercent` is a float in
the source; only presence matters to the embedded code paths, so the
numeric fields are modelled as naturals. -/
structure PerformanceMetrics where
  durationMs : Option Nat := none
  memoryBytes : Option Nat := none
  cpuPercent : Option Nat := none
deriving DecidableEq, Repr

/-- LogEntry record from types.ts: every field nullable at the call
site.  Timestamps (`Date`) are modelled as milliseconds. -/
structure LogEntry where
  logId : Option String := none
  timestamp : Option Nat := none
  level : Option LogLevel := none
  message : Option String := none
  service : Option String := none
  environment : Option String := none
  event : Option String := none
  includeEmoji : TriBool := .absent
  context : Option LoggingContext := none
  metadata : Option LogMetadata := none
  metrics : Option PerformanceMetrics := none
  error : Option ErrorDetails := none
deriving DecidableEq, Repr

/-- The `data` argument of a logging call (`Partial<LogEntry>` fields
actually read by `createLogEntry`); the `error` field may hold any
runtime value. -/
structure PartialLogEntry where
  event : Option String := none
  includeEmoji : TriBool := .absent
  context : Option LoggingContext := none
  metadata : Option LogMetadata := none
  metrics : Option PerformanceMetrics := none
  error : Option ErrorInput := none
deriving DecidableEq, Repr

/-- A stream of draws of `Math.floor(Math.random() * 16)`: each draw is
a hex digit index in 0..15. -/
abbrev HexRng := Nat → Fin 16

/-- The character table `'0123456789abcdef'` used by the ID generators:
`Nat.digitChar` sends 0..15 to exactly these sixteen characters. -/
def hexChars : List Char :=
  (List.range 16).map Nat.digitChar

/-- One random hex character, `chars[Math.floor(Math.random() * 16)]`. -/
def hexChar (i : Fin 16) : Char :=
  Nat.digitChar i.val

/-- `Logger.generateLogId` (logger.ts lines 224-232): the fixed prefix
followed by 32 random hex characters. -/
def Logger.generateLogId (r : HexRng) : String :=
  "log_" ++ String.mk ((List.range 32).map fun i => hexChar (r i))

/-- `createTraceId` (context.ts lines 19-26): 32 random hex characters. -/
def createTraceId (r : HexRng) : String :=
  String.mk ((List.range 32).map fun i => hexChar (r i))

/-- `createSpanId` (context.ts lines 31-38): 16 random hex characters. -/
def createSpanId (r : HexRng) : String :=
  String.mk ((List.range 16).map fun i => hexChar (r i))

/-- The template-replacement loop of `createCorrelationId`: each `x`
becomes a random hex digit, each `y` becomes `(r & 0x3) | 0x8`
(arithmetically `r % 4 + 8`, the two bit masks being disjoint), other
characters pass through; one random draw is consumed per replacement. -/
def uuidFill : List Char → HexRng → Nat → List Char
  | [], _, _ => []
  | c :: rest, r, k =>
    if c = 'x' then hexChar (r k) :: uuidFill rest r (k + 1)
    else if c = 'y' then hexChar ⟨(r k).val % 4 + 8, by omega⟩ :: uuidFill rest r (k + 1)
    else c :: uuidFill rest r (k + 1)

/-- `createCorrelationId` (context.ts lines 7-14): UUID v4 shaped random
identifier. -/
def createCorrelationId (r : HexRng) : String :=
  String.mk (uuidFill "xxxxxxxx-xxxx-4xxx-yxxx-xxxxxxxxxxxx".toList r 0)

/-- Instance state of a `Logger` (logger.ts): service, environment, the
emoji resolver it shares with its adapters, its base context and its
own `ContextManager`.  The adapter list is kept outside the state: the
dispatch loop hands every adapter the same entry value. -/
structure LoggerState where
  service : String
  environment : String
  emojiResolver : EmojiResolver := {}
  baseContext : LoggingContext := {}
  contextManager : ContextManager := {}
deriving DecidableEq, Repr

/-- `Logger.createLogEntry` (logger.ts lines 185-219): fresh log ID and
timestamp; context = base merged with the current scope merged with
`data.context`, with a correlation ID generated when still absent;
`includeEmoji` taken from the resolver's enabled flag; event copied only
when truthy; metadata/metrics copied when present; `data.error`
sanitized only when truthy, and the entry's error field present only
when sanitization produced a value.  `rId` draws the log-ID digits and
`rCorr` the correlation-ID digits; `now` is the current time. -/
def Logger.createLogEntry (st : LoggerState) (level : LogLevel) (message : String)
    (data : Option PartialLogEntry) (rId rCorr : HexRng) (now : Nat) : LogEntry :=
  let logId := Logger.generateLogId rId
  let currentContext := st.contextManager.currentContext
  let dataContext := (data.bind fun d => d.context).getD {}
  let context := (st.baseContext.merge currentContext).merge dataContext
  let context := { context with
    correlationId := some (context.correlationId.getD (createCorrelationId rCorr)) }
  let sanitizedError :=
    match data.bind fun d => d.error with
    | some e => if e.jsTruthy then Logger.sanitizeError e else none
    | none => none
  { logId := some logId
    timestamp := some now
    level := some level
    message := some message
    service := some st.service
    environment := some st.environment
    includeEmoji := .val st.emojiResolver.enabled
    context := some context
    event :=
      match data.bind fun d => d.event with
      | some s => if s ≠ "" then some s else none
      | none => none
    metadata := data.bind fun d => d.metadata
    metrics := data.bind fun d => d.metrics
    error := sanitizedError }

/-- `Logger.log` (logger.ts lines 91-94): builds the entry and hands the
very same value to every adapter; the value dispatched is the one this
function returns (adapter failures are swallowed and cannot alter it). -/
def Logger.log (st : LoggerState) (level : LogLevel) (message : String)
    (data : Option PartialLogEntry) (rId rCorr : HexRng) (now : Nat) : LogEntry :=
  Logger.createLogEntry st level message data rId rCorr now

/-- `Logger.info` convenience wrapper (logger.ts lines 63-65); the other
per-level methods differ only in the level constant. -/
def Logger.info (st : LoggerState) (message : String) (data : Option PartialLogEntry)
    (rId rCorr : HexRng) (now : Nat) : LogEntry :=
  Logger.log st .INFO message data rId rCorr now

/-- Timestamp formats accepted by both adapters. -/
inductive TimestampFormat
  | iso
  | short
  | relative
deriving DecidableEq, Repr

/-- Constructor options of `ConsoleAdapter` (console.ts), all optional. -/
structure ConsoleAdapterOptions where
  enableColors : Option Bool := none
  enableEmojis : Option Bool := none
  timestampFormat : Option TimestampFormat := none
  logLevel : Option LogLevel := none
  emojiResolver : Option EmojiResolver := none
deriving DecidableEq, Repr

/-- Resolved (`Required`) options held by a constructed
`ConsoleAdapter`; the resolver is kept separately since it is shared
mutable state. -/
structure ConsoleAdapterConfig where
  enableColors : Bool
  enableEmojis : Bool
  timestampFormat : TimestampFormat
  logLevel : LogLevel
deriving DecidableEq, Repr

/-- `ConsoleAdapter` constructor (console.ts lines 43-54): defaults the
options, takes the supplied resolver or creates one, then calls
`setEnabled(enableEmojis)` on it.  Returns the adapter configuration
together with the post-construction state of the (possibly shared)
resolver instance. -/
def ConsoleAdapter.init (options : ConsoleAdapterOptions) :
    ConsoleAdapterConfig × EmojiResolver :=
  let enableEmojis := options.enableEmojis.getD false
  let resolver := options.emojiResolver.getD { enabled := enableEmojis }
  ({ enableColors := options.enableColors.getD true
     enableEmojis := enableEmojis
     timestampFormat := options.timestampFormat.getD .iso
     logLevel := options.logLevel.getD .INFO },
   resolver.setEnabled enableEmojis)

/-- `ConsoleAdapter.shouldLog` (console.ts lines 113-117). -/
def ConsoleAdapter.shouldLog (cfg : ConsoleAdapterConfig) (level : LogLevel) : Bool :=
  levelOrder cfg.logLevel ≤ levelOrder level

/-- ANSI dim code used around the correlation-ID suffix. -/
def ansiDim : String := "\x1b[2m"

/-- ANSI reset code. -/
def ansiReset : String := "\x1b[0m"

/-- The correlation-ID suffix step of `ConsoleAdapter.formatLogEntry`
(console.ts lines 156-163): appends ` (correlationId)` — dimmed when
colors are on — when the entry context carries a truthy correlation
ID. -/
def ConsoleAdapter.withCorrelation (cfg : ConsoleAdapterConfig) (entry : LogEntry)
    (message : String) : String :=
  match entry.context with
  | some c =>
    if strTruthy c.correlationId then
      if cfg.enableColors then
        message ++ " " ++ ansiDim ++ "(" ++ c.correlationId.getD "" ++ ")" ++ ansiReset
      else
        message ++ " (" ++ c.correlationId.getD "" ++ ")"
    else message
  | none => message

/-- The message portion of `ConsoleAdapter.formatLogEntry` (console.ts
lines 148-163): the message with the optional emoji, decided by the
entry-level tri-state with the adapter's `enableEmojis` as the default
and rendered through the shared resolver, followed by the correlation-ID
suffix.  Timestamp, level and service columns and the error/metrics/
metadata blocks are rendered around this string and never touch it. -/
def ConsoleAdapter.messagePart (cfg : ConsoleAdapterConfig) (resolver : EmojiResolver)
    (entry : LogEntry) : String :=
  let message := entry.message.getD ""
  let shouldIncludeEmoji := entry.includeEmoji.resolve cfg.enableEmojis
  let message :=
    if shouldIncludeEmoji && strTruthy entry.event then
      resolver.formatMessage message entry.event
    else message
  ConsoleAdapter.withCorrelation cfg entry message

/-- The message portion with the emoji step skipped entirely: what the
formatted line carries when no emoji is prefixed. -/
def ConsoleAdapter.messagePartPlain (cfg : ConsoleAdapterConfig) (entry : LogEntry) : String :=
  ConsoleAdapter.withCorrelation cfg entry (entry.message.getD "")

/-- The console streams an entry can be routed to. -/
inductive ConsoleMethod
  | debugStream
  | infoStream
  | warnStream
  | errorStream
deriving DecidableEq, Repr

/-- Stream selection of `ConsoleAdapter.write` (console.ts lines 71-93). -/
def ConsoleAdapter.methodFor : LogLevel → ConsoleMethod
  | .TRACE => .debugStream
  | .DEBUG => .debugStream
  | .INFO => .infoStream
  | .WARN => .warnStream
  | .ERROR => .errorStream
  | .FATAL => .errorStream

/-- `ConsoleAdapter.write` (console.ts lines 59-94): the entry's level is
coalesced to INFO, filtered against the configured minimum, and on
success one console call is made; `none` means no console side effect at
all.  The emitted pair carries the chosen stream and the emoji-bearing
message portion of the formatted line. -/
def ConsoleAdapter.write (cfg : ConsoleAdapterConfig) (resolver : EmojiResolver)
    (entry : LogEntry) : Option (ConsoleMethod × String) :=
  let level := entry.level.getD .INFO
  if ConsoleAdapter.shouldLog cfg level then
    some (ConsoleAdapter.methodFor level, ConsoleAdapter.messagePart cfg resolver entry)
  else none

/-- Constructor options of `FileAdapter` (file.ts); `filePath` is
required (its absence throws). -/
structure FileAdapterOptions where
  filePath : String
  enableEmojis : Option Bool := none
  maxFileSize : Option Nat := none
  maxBackupFiles : Option Nat := none
  rotateOnSize : Option Bool := none
  rotateDaily : Option Bool := none
  timestampFormat : Option TimestampFormat := none
  logLevel : Option LogLevel := none
  emojiResolver : Option EmojiResolver := none
  bufferSize : Option Nat := none
  flushInterval : Option Nat := none
deriving DecidableEq, Repr

/-- Resolved options held by a constructed `FileAdapter`. -/
structure FileAdapterConfig where
  filePath : String
  enableEmojis : Bool
  maxFileSize : Nat
  maxBackupFiles : Nat
  rotateOnSize : Bool
  rotateDaily : Bool
  timestampFormat : TimestampFormat
  logLevel : LogLevel
  bufferSize : Nat
  flushInterval : Nat
deriving DecidableEq, Repr

/-- `FileAdapter` constructor (file.ts lines 42-72): throws (modelled as
`none`) when `filePath` is falsy; otherwise resolves the options and
calls `setEnabled(enableEmojis)` on the supplied-or-fresh resolver.
File-system initialization and the flush timer are host effects outside
the state modelled here. -/
def FileAdapter.init (options : FileAdapterOptions) :
    Option (FileAdapterConfig × EmojiResolver) :=
  if options.filePath = "" then none
  else
    let enableEmojis := options.enableEmojis.getD false
    let resolver := options.emojiResolver.getD { enabled := enableEmojis }
    some
      ({ filePath := options.filePath
         enableEmojis := enableEmojis
         maxFileSize := options.maxFileSize.getD (100 * 1024 * 1024)
         maxBackupFiles := options.maxBackupFiles.getD 5
         rotateOnSize := options.rotateOnSize.getD true
         rotateDaily := options.rotateDaily.getD false
         timestampFormat := options.timestampFormat.getD .iso
         logLevel := options.logLevel.getD .INFO
         bufferSize := options.bufferSize.getD 10
         flushInterval := options.flushInterval.getD 5000 },
       resolver.setEnabled enableEmojis)

/-- `FileAdapter.shouldLog` (file.ts lines 186-190). -/
def FileAdapter.shouldLog (cfg : FileAdapterConfig) (level : LogLevel) : Bool :=
  levelOrder cfg.logLevel ≤ levelOrder level

/-- `FileAdapter.formatMessage` (file.ts lines 216-226): same entry-level
emoji override semantics as the console adapter, with no correlation
suffix. -/
def FileAdapter.formatMessage (cfg : FileAdapterConfig) (resolver : EmojiResolver)
    (entry : LogEntry) : String :=
  let message := entry.message.getD ""
  let shouldIncludeEmoji := entry.includeEmoji.resolve cfg.enableEmojis
  if shouldIncludeEmoji && strTruthy entry.event then
    resolver.formatMessage message entry.event
  else message

/-- One line of the newline-delimited JSON file produced by
`FileAdapter.formatLogEntry` (file.ts lines 195-211), with fields
defaulted exactly as in the source.  The timestamp is kept as the raw
entry value: its string rendering (`formatTimestamp`) depends on the
host clock and locale and is never read back by the core. -/
structure FileRecord where
  timestamp : Option Nat
  level : LogLevel
  service : String
  environment : String
  message : String
  logId : String
  event : Option String := none
  context : Option LoggingContext := none
  metadata : Option LogMetadata := none
  metrics : Option PerformanceMetrics := none
  error : Option ErrorDetails := none
deriving DecidableEq, Repr

/-- `FileAdapter.formatLogEntry` (file.ts lines 195-211): the optional
fields are copied only when truthy (for `event`, a non-empty string;
objects are truthy whenever present). -/
def FileAdapter.formatLogEntry (cfg : FileAdapterConfig) (resolver : EmojiResolver)
    (entry : LogEntry) : FileRecord where
  timestamp := entry.timestamp
  level := entry.level.getD .INFO
  service := entry.service.getD "unknown"
  environment := entry.environment.getD "unknown"
  message := FileAdapter.formatMessage cfg resolver entry
  logId := entry.logId.getD "unknown"
  event := if strTruthy entry.event then entry.event else none
  context := entry.context
  metadata := entry.metadata
  metrics := entry.metrics
  error := entry.error

/-- Buffer state of a `FileAdapter`: the in-memory line buffer and the
lines already written to the append-mode stream. -/
structure FileAdapterBuffer where
  buffer : List FileRecord := []
  written : List FileRecord := []
deriving DecidableEq, Repr

/-- `FileAdapter.flushBuffer` (file.ts lines 250-268): moves the whole
buffer onto the stream (no-op on an empty buffer); rotation bookkeeping
renames files on the host and does not change which lines were
produced. -/
def FileAdapter.flushBuffer (st : FileAdapterBuffer) : FileAdapterBuffer :=
  if st.buffer.isEmpty then st
  else { buffer := [], written := st.written ++ st.buffer }

/-- `FileAdapter.write` (file.ts lines 77-95): level coalesced to INFO,
filtered against the configured minimum; an accepted entry is formatted,
appended to the buffer, and the buffer is flushed when it reaches
`bufferSize`.  A filtered entry leaves the state untouched. -/
def FileAdapter.write (cfg : FileAdapterConfig) (resolver : EmojiResolver)
    (st : FileAdapterBuffer) (entry : LogEntry) : FileAdapterBuffer :=
  let level := entry.level.getD .INFO
  if FileAdapter.shouldLog cfg level then
    let st2 : FileAdapterBuffer :=
      { st with buffer := st.buffer ++ [FileAdapter.formatLogEntry cfg resolver entry] }
    if cfg.bufferSize ≤ st2.buffer.length then FileAdapter.flushBuffer st2 else st2
  else st

/-- Logger configuration after `LoggerFactory.resolveConfig` filled every
field (factory.ts lines 193-206). -/
structure ResolvedLoggerConfig where
  service : String
  environment : String
  emojis : Bool
  adapters : List String
  level : LogLevel
  context : LoggingContext := {}
deriving DecidableEq, Repr

/-- An adapter successfully constructed by the factory, by its resolved
configuration. -/
inductive AdapterInstance
  | consoleAdapter (cfg : ConsoleAdapterConfig)
  | fileAdapter (cfg : FileAdapterConfig)
deriving DecidableEq, Repr

/-- Diagnostic-channel messages issued by `LoggerFactory.createAdapters`
(console.warn / console.error calls in factory.ts lines 256-272). -/
inductive FactoryDiagnostic
  | unknownAdapterWarning (name : String)
  | localStorageWarning
  | adapterCreateError (name : String)
deriving DecidableEq, Repr

/-- The console-adapter options the factory passes (factory.ts lines
236-242 and the fallback at 277-283): `enableEmojis := config.emojis`,
`logLevel := config.level`, sharing the logger's resolver. -/
def LoggerFactory.consoleOptions (config : ResolvedLoggerConfig)
    (resolver : EmojiResolver) : ConsoleAdapterOptions :=
  { enableEmojis := some config.emojis
    logLevel := some config.level
    emojiResolver := some resolver }

/-- One arm of the `switch` in `LoggerFactory.createAdapters` (factory.ts
lines 232-273): at most one adapter plus any diagnostics per configured
name.  `logFile` is the LOG_FILE environment value; `fileCtorOk`
abstracts whether the file-system part of the `FileAdapter` constructor
succeeds (directory creation / writability); `hasWindow` is whether a
browser `window` exists.  A thrown constructor is caught and reported,
never propagated. -/
def LoggerFactory.buildAdapter (config : ResolvedLoggerConfig) (resolver : EmojiResolver)
    (logFile : Option String) (fileCtorOk : Bool) (hasWindow : Bool)
    (name : String) : Option AdapterInstance × List FactoryDiagnostic :=
  if name = "console" then
    (some (.consoleAdapter (ConsoleAdapter.init (LoggerFactory.consoleOptions config resolver)).1), [])
  else if name = "file" then
    match FileAdapter.init
        { filePath := logFile.getD "./logs/app.log"
          enableEmojis := some config.emojis
          logLevel := some config.level
          emojiResolver := some resolver } with
    | some (cfg, _) =>
      if fileCtorOk then (some (.fileAdapter cfg), [])
      else (none, [.adapterCreateError name])
    | none => (none, [.adapterCreateError name])
  else if name = "localStorage" then
    (none, if hasWindow then [.localStorageWarning] else [])
  else
    (none, [.unknownAdapterWarning name])

/-- `LoggerFactory.createAdapters` (factory.ts lines 226-287): builds the
named adapters in order, collecting diagnostics, and appends a console
adapter when none were configured. -/
def LoggerFactory.createAdapters (config : ResolvedLoggerConfig) (resolver : EmojiResolver)
    (logFile : Option String) (fileCtorOk : Bool) (hasWindow : Bool) :
    List AdapterInstance × List FactoryDiagnostic :=
  let results := config.adapters.map
    (LoggerFactory.buildAdapter config resolver logFile fileCtorOk hasWindow)
  let adapters := results.filterMap fun r => r.1
  let diags := (results.map fun r => r.2).flatten
  (if adapters.isEmpty then
      [.consoleAdapter (ConsoleAdapter.init (LoggerFactory.consoleOptions config resolver)).1]
    else adapters,
   diags)

/-! ## Theorems -/

/-- Every character the hex generators can emit is a hex digit. -/
theorem hexChar_mem_hexChars (i : Fin 16) : hexChar i ∈ hexChars := by
  fin_cases i <;> decide

/-- A disabled resolver never alters a message. -/
theorem EmojiResolver.formatMessage_of_not_enabled (r : EmojiResolver) (m : String)
    (ev fb : Option String) (h : r.enabled = false) : r.formatMessage m ev fb = m := by
  simp [EmojiResolver.formatMessage, h]

/-- C6: for every manager state and partial context, pushContext
followed by popContext returns the saved context and restores both the
current context and the stack to exactly their pre-push values; and
popContext on an empty stack returns `undefined` (`none`) and leaves the
state — in particular the current context — unchanged. -/
theorem ContextManager.pushContext_popContext (cm : ContextManager) (p : LoggingContext) :
    ((cm.pushContext p).popContext = (some cm.currentContext, cm)) ∧
    ∀ c : LoggingContext,
      ContextManager.popContext { currentContext := c, contextStack := [] } =
        (none, { currentContext := c, contextStack := [] }) := by
  refine ⟨?_, fun c => rfl⟩
  simp [ContextManager.pushContext, ContextManager.popContext]

/-- C9: the dispatched entry's `includeEmoji` always equals the Logger's
resolver `enabled` flag at call time, and the `includeEmoji` supplied in
the call's data is discarded: two data values differing only in that
field produce identical entries, so the entry-level tri-state cannot be
set through the Logger's logging methods. -/
theorem Logger.log_includeEmoji_from_resolver (st : LoggerState) (level : LogLevel)
    (message : String) (data : Option PartialLogEntry) (rId rCorr : HexRng) (now : Nat) :
    ((Logger.log st level message data rId rCorr now).includeEmoji
      = .val st.emojiResolver.enabled) ∧
    ∀ (d : PartialLogEntry) (t₁ t₂ : TriBool),
      Logger.log st level message (some { d with includeEmoji := t₁ }) rId rCorr now =
        Logger.log st level message (some { d with includeEmoji := t₂ }) rId rCorr now := by
  exact ⟨rfl, fun d t₁ t₂ => rfl⟩

/-- C10: constructing either adapter with a supplied resolver instance
overwrites that shared instance's `enabled` flag with the adapter's
`enableEmojis` option (`false` when omitted), whatever the flag was
before; the custom-mapping table is untouched, so it is the same
resolver, mutated in place, that every other holder of the instance now
observes. -/
theorem adapter_init_overwrites_shared_resolver (co : ConsoleAdapterOptions)
    (fo : FileAdapterOptions) (r : EmojiResolver) (hfo : fo.filePath ≠ "") :
    ((ConsoleAdapter.init { co with emojiResolver := some r }).2.enabled
        = co.enableEmojis.getD false ∧
      (ConsoleAdapter.init { co with emojiResolver := some r }).2.customMappings
        = r.customMappings) ∧
    ∃ pr : FileAdapterConfig × EmojiResolver,
      FileAdapter.init { fo with emojiResolver := some r } = some pr ∧
      pr.2.enabled = fo.enableEmojis.getD false ∧
      pr.2.customMappings = r.customMappings := by
  refine ⟨⟨rfl, rfl⟩, ?_⟩
  simp only [FileAdapter.init, hfo, if_neg]
  exact ⟨_, rfl, rfl, rfl⟩

/-- Witness for the shared-resolver mutation theorem: a resolver that
was enabled is disabled by constructing adapters that omit
`enableEmojis`. -/
theorem adapter_init_overwrites_shared_resolver_witness :
    (ConsoleAdapter.init
        { (({} : ConsoleAdapterOptions)) with
            emojiResolver := some { enabled := true } }).2.enabled = false ∧
    ∃ pr : FileAdapterConfig × EmojiResolver,
      FileAdapter.init
          { ({ filePath := "./logs/app.log" } : FileAdapterOptions) with
              emojiResolver := some { enabled := true } } = some pr ∧
      pr.2.enabled = false := by
  have h := adapter_init_overwrites_shared_resolver {} { filePath := "./logs/app.log" }
    { enabled := true } (by decide)
  refine ⟨h.1.1, ?_⟩
  obtain ⟨pr, hpr, hen, -⟩ := h.2
  exact ⟨pr, hpr, hen⟩

/-- C3: whatever the data argument (including absent data or data whose
fields are null/missing), the dispatched entry carries the called
level, the logger's service and environment, the generation-time
timestamp, a log ID of the fixed prefix `log_` followed by 32 hex
characters, and a context whose correlation ID is present (generated
when still absent after merging base context, current scope and
`data.context`). -/
theorem Logger.log_entry_populated (st : LoggerState) (level : LogLevel) (message : String)
    (data : Option PartialLogEntry) (rId rCorr : HexRng) (now : Nat) :
    (Logger.log st level message data rId rCorr now).level = some level ∧
    (Logger.log st level message data rId rCorr now).service = some st.service ∧
    (Logger.log st level message data rId rCorr now).environment = some st.environment ∧
    (Logger.log st level message data rId rCorr now).timestamp = some now ∧
    (∃ s : List Char,
      (Logger.log st level message data rId rCorr now).logId = some ("log_" ++ String.mk s) ∧
      s.length = 32 ∧ ∀ c ∈ s, c ∈ hexChars) ∧
    ∃ ctx : LoggingContext,
      (Logger.log st level message data rId rCorr now).context = some ctx ∧
      ctx.correlationId.isSome := by
  refine ⟨rfl, rfl, rfl, rfl, ?_, ?_⟩
  · refine ⟨(List.range 32).map fun i => hexChar (rId i), rfl, by simp, ?_⟩
    intro c hc
    obtain ⟨i, -, rfl⟩ := List.mem_map.mp hc
    exact hexChar_mem_hexChars _
  · exact ⟨_, rfl, rfl⟩

/-- C4: each adapter emits exactly when the entry's level — coalesced to
INFO when absent or null — is at least the adapter's configured minimum
in the order TRACE < DEBUG < INFO < WARN < ERROR < FATAL: the console
adapter makes a console call precisely then, and the file adapter's
total line count (buffered plus written) grows by one precisely then.
In particular, with minimum WARN, TRACE/DEBUG/INFO entries produce no
output side effect while WARN/ERROR/FATAL entries do. -/
theorem adapter_level_filtering (ccfg : ConsoleAdapterConfig) (cr : EmojiResolver)
    (fcfg : FileAdapterConfig) (fr : EmojiResolver) (st : FileAdapterBuffer) (e : LogEntry) :
    ((ConsoleAdapter.write ccfg cr e).isSome ↔
      levelOrder ccfg.logLevel ≤ levelOrder (e.level.getD .INFO)) ∧
    ((FileAdapter.write fcfg fr st e).buffer.length
        + (FileAdapter.write fcfg fr st e).written.length =
      st.buffer.length + st.written.length +
        if levelOrder fcfg.logLevel ≤ levelOrder (e.level.getD .INFO) then 1 else 0) ∧
    (ccfg.logLevel = .WARN →
      ((e.level = some .TRACE ∨ e.level = some .DEBUG ∨ e.level = some .INFO) →
        ConsoleAdapter.write ccfg cr e = none) ∧
      ((e.level = some .WARN ∨ e.level = some .ERROR ∨ e.level = some .FATAL) →
        (ConsoleAdapter.write ccfg cr e).isSome)) := by
  have hconsole : (ConsoleAdapter.write ccfg cr e).isSome ↔
      levelOrder ccfg.logLevel ≤ levelOrder (e.level.getD .INFO) := by
    unfold ConsoleAdapter.write ConsoleAdapter.shouldLog
    by_cases h : levelOrder ccfg.logLevel ≤ levelOrder (e.level.getD .INFO) <;> simp [h]
  refine ⟨hconsole, ?_, ?_⟩
  · by_cases h : levelOrder fcfg.logLevel ≤ levelOrder (e.level.getD .INFO)
    · have hs : FileAdapter.shouldLog fcfg (e.level.getD .INFO) = true := by
        simp [FileAdapter.shouldLog, h]
      by_cases hb :
          fcfg.bufferSize ≤ (st.buffer ++ [FileAdapter.formatLogEntry fcfg fr e]).length
      · simp only [FileAdapter.write, hs, if_true, hb, FileAdapter.flushBuffer]
        simp [h]
        omega
      · simp only [FileAdapter.write, hs, if_true, hb, if_neg]
        simp [h]
        omega
    · have hs : FileAdapter.shouldLog fcfg (e.level.getD .INFO) = false := by
        simp [FileAdapter.shouldLog, h]
      simp [FileAdapter.write, hs, h]
  · intro hw
    constructor
    · intro h
      have hlt : levelOrder (e.level.getD .INFO) < levelOrder ccfg.logLevel := by
        rcases h with h | h | h <;> rw [h, hw] <;> decide
      cases hcw : ConsoleAdapter.write ccfg cr e with
      | none => rfl
      | some v =>
        have hle := hconsole.mp (by rw [hcw]; rfl)
        omega
    · intro h
      rw [hconsole]
      rcases h with h | h | h <;> rw [h, hw] <;> decide

/-- Witness for the level-filtering theorem: with minimum WARN a DEBUG
entry produces nothing on the console while an ERROR entry does. -/
theorem adapter_level_filtering_witness :
    (ConsoleAdapter.write
        { enableColors := true, enableEmojis := false, timestampFormat := .iso,
          logLevel := .WARN } {} { level := some .DEBUG } = none) ∧
    (ConsoleAdapter.write
        { enableColors := true, enableEmojis := false, timestampFormat := .iso,
          logLevel := .WARN } {} { level := some .ERROR }).isSome := by
  have h₁ := adapter_level_filtering
    { enableColors := true, enableEmojis := false, timestampFormat := .iso, logLevel := .WARN }
    {} { filePath := "f", enableEmojis := false, maxFileSize := 1, maxBackupFiles := 1,
         rotateOnSize := true, rotateDaily := false, timestampFormat := .iso,
         logLevel := .WARN, bufferSize := 1, flushInterval := 0 } {} {}
    { level := some .DEBUG }
  have h₂ := adapter_level_filtering
    { enableColors := true, enableEmojis := false, timestampFormat := .iso, logLevel := .WARN }
    {} { filePath := "f", enableEmojis := false, maxFileSize := 1, maxBackupFiles := 1,
         rotateOnSize := true, rotateDaily := false, timestampFormat := .iso,
         logLevel := .WARN, bufferSize := 1, flushInterval := 0 } {} {}
    { level := some .ERROR }
  exact ⟨(h₁.2.2 rfl).1 (Or.inr (Or.inl rfl)), (h₂.2.2 rfl).2 (Or.inr (Or.inl rfl))⟩

/-- C8: `getEmoji` returns the empty string whenever resolution is
disabled; when enabled it consults the custom table first, then the
default table for predefined events, then the fallback (or empty
string); and null, undefined, or non-string input is accepted — the
function is total, nothing can make it throw — and treated as
unresolved, reaching the fallback branch. -/
theorem EmojiResolver.getEmoji_resolution (r : EmojiResolver) (ev : EventInput)
    (fb : Option String) (s : String) (m : EmojiMapping) (le : LogEvent) :
    (r.enabled = false → r.getEmoji ev fb = "") ∧
    (r.enabled = true → r.findCustom s = some m → r.getEmoji (.str s) fb = m.emoji) ∧
    (r.enabled = true → r.findCustom s = none → logEventOfString s = some le →
      r.getEmoji (.str s) fb = (defaultEmojiMappings le).emoji) ∧
    (r.enabled = true → r.findCustom s = none → logEventOfString s = none →
      r.getEmoji (.str s) fb = fb.getD "") ∧
    (r.enabled = true → (ev = .jsNull ∨ ev = .jsUndefined ∨ ev = .nonString) →
      r.getEmoji ev fb = fb.getD "") := by
  refine ⟨fun h => by simp [EmojiResolver.getEmoji, h],
    fun h hc => by simp [EmojiResolver.getEmoji, h, hc],
    fun h hc hd => by simp [EmojiResolver.getEmoji, h, hc, hd],
    fun h hc hd => by simp [EmojiResolver.getEmoji, h, hc, hd],
    fun h hev => ?_⟩
  rcases hev with rfl | rfl | rfl <;> simp [EmojiResolver.getEmoji, h]

/-- Witness for the getEmoji theorem: a custom mapping overrides the
default table, a predefined event resolves from the default table, an
unknown key falls back, null input falls back, and a disabled resolver
yields the empty string. -/
theorem EmojiResolver.getEmoji_resolution_witness :
    (EmojiResolver.getEmoji { enabled := false } (.str "SYSTEM_START") none = "") ∧
    (EmojiResolver.getEmoji
        { enabled := true, customMappings := [("SYSTEM_START", { emoji := "🎉", description := "party" })] }
        (.str "SYSTEM_START") none = "🎉") ∧
    (EmojiResolver.getEmoji { enabled := true } (.str "SYSTEM_START") none = "🚀") ∧
    (EmojiResolver.getEmoji { enabled := true } (.str "nope") (some "⭐") = "⭐") ∧
    (EmojiResolver.getEmoji { enabled := true } .jsNull (some "⭐") = "⭐") := by
  refine ⟨(EmojiResolver.getEmoji_resolution { enabled := false } (.str "SYSTEM_START") none
      "SYSTEM_START" { emoji := "", description := "" } .SYSTEM_START).1 rfl,
    (EmojiResolver.getEmoji_resolution _ (.str "SYSTEM_START") none "SYSTEM_START"
      { emoji := "🎉", description := "party" } .SYSTEM_START).2.1 rfl (by decide),
    (EmojiResolver.getEmoji_resolution { enabled := true } (.str "SYSTEM_START") none
      "SYSTEM_START" { emoji := "", description := "" } .SYSTEM_START).2.2.1 rfl (by decide)
      (by decide),
    (EmojiResolver.getEmoji_resolution { enabled := true } (.str "nope") (some "⭐") "nope"
      { emoji := "", description := "" } .SYSTEM_START).2.2.2.1 rfl (by decide) (by decide),
    (EmojiResolver.getEmoji_resolution { enabled := true } .jsNull (some "⭐") ""
      { emoji := "", description := "" } .SYSTEM_START).2.2.2.2 rfl (Or.inl rfl)⟩

/-- One header field survives the serialize-then-extract pipeline
exactly when it was not the empty string. -/
theorem strTruthy_roundtrip (o : Option String) (h : o ≠ some "") :
    (if strTruthy (if strTruthy o then o else none) then
        (if strTruthy o then o else none)
      else none) = o := by
  match o with
  | none => simp [strTruthy]
  | some s =>
    have hs : s ≠ "" := fun he => h (by rw [he])
    simp [strTruthy, hs]

/-- C5: converting a context to propagation headers and extracting a
context back recovers exactly the correlation, trace, span, user,
session and request fields that were present in the original context,
whenever every present field is a non-empty string (valid-format
identifiers in particular are non-empty); `parentCorrelationId` is not
part of the header mapping and comes back absent. -/
theorem ContextManager.headers_roundtrip (ctx : LoggingContext)
    (h₁ : ctx.correlationId ≠ some "") (h₂ : ctx.traceId ≠ some "")
    (h₃ : ctx.spanId ≠ some "") (h₄ : ctx.userId ≠ some "")
    (h₅ : ctx.sessionId ≠ some "") (h₆ : ctx.requestId ≠ some "") :
    ContextManager.extractFromHeaders (ContextManager.toHeaders ctx) =
      { correlationId := ctx.correlationId, traceId := ctx.traceId, spanId := ctx.spanId,
        userId := ctx.userId, sessionId := ctx.sessionId, requestId := ctx.requestId } := by
  unfold ContextManager.extractFromHeaders ContextManager.toHeaders
  simp only [LoggingContext.mk.injEq]
  exact ⟨strTruthy_roundtrip _ h₁, strTruthy_roundtrip _ h₂, strTruthy_roundtrip _ h₃,
    strTruthy_roundtrip _ h₄, strTruthy_roundtrip _ h₅, strTruthy_roundtrip _ h₆, trivial⟩

/-- Witness for the header round-trip: a fully populated context with
valid-format identifiers survives the round trip unchanged. -/
theorem ContextManager.headers_roundtrip_witness :
    ContextManager.extractFromHeaders (ContextManager.toHeaders
      { correlationId := some "f47ac10b-58cc-4372-a567-0e02b2c3d479",
        traceId := some "4bf92f3577b34da6a3ce929d0e0e4736",
        spanId := some "00f067aa0ba902b7",
        userId := some "usr_12345678",
        sessionId := some "sess_0123",
        requestId := some "req_0123456789abcdef" }) =
      { correlationId := some "f47ac10b-58cc-4372-a567-0e02b2c3d479",
        traceId := some "4bf92f3577b34da6a3ce929d0e0e4736",
        spanId := some "00f067aa0ba902b7",
        userId := some "usr_12345678",
        sessionId := some "sess_0123",
        requestId := some "req_0123456789abcdef" } :=
  ContextManager.headers_roundtrip _ (by decide) (by decide) (by decide) (by decide)
    (by decide) (by decide)

/-- C7: the factory's adapter construction never raises for a bad name —
every unknown adapter name contributes a diagnostic warning and no
adapter — and the returned list is never empty: whenever zero adapters
end up configured (unknown names, failed constructions, or an empty
list), exactly one console adapter is returned as the fallback. -/
theorem LoggerFactory.createAdapters_fallback (config : ResolvedLoggerConfig)
    (resolver : EmojiResolver) (logFile : Option String) (fileCtorOk hasWindow : Bool) :
    (LoggerFactory.createAdapters config resolver logFile fileCtorOk hasWindow).1 ≠ [] ∧
    (∀ name ∈ config.adapters,
      name ≠ "console" → name ≠ "file" → name ≠ "localStorage" →
      (LoggerFactory.buildAdapter config resolver logFile fileCtorOk hasWindow name).1 = none ∧
      FactoryDiagnostic.unknownAdapterWarning name ∈
        (LoggerFactory.createAdapters config resolver logFile fileCtorOk hasWindow).2) ∧
    ((∀ name ∈ config.adapters,
        (LoggerFactory.buildAdapter config resolver logFile fileCtorOk hasWindow name).1 = none) →
      (LoggerFactory.createAdapters config resolver logFile fileCtorOk hasWindow).1 =
        [.consoleAdapter (ConsoleAdapter.init (LoggerFactory.consoleOptions config resolver)).1]) := by
  refine ⟨?_, ?_, ?_⟩
  · unfold LoggerFactory.createAdapters
    dsimp only
    split
    · exact fun h => by simp at h
    · next h =>
      intro hnil
      rw [hnil] at h
      exact h rfl
  · intro name hmem hc hf hl
    have hbuild :
        LoggerFactory.buildAdapter config resolver logFile fileCtorOk hasWindow name =
          (none, [.unknownAdapterWarning name]) := by
      unfold LoggerFactory.buildAdapter
      rw [if_neg hc, if_neg hf, if_neg hl]
    refine ⟨by rw [hbuild], ?_⟩
    unfold LoggerFactory.createAdapters
    dsimp only
    simp only [List.mem_flatten]
    refine ⟨[.unknownAdapterWarning name], ?_, by simp⟩
    simp only [List.mem_map]
    exact ⟨(none, [.unknownAdapterWarning name]),
      ⟨name, hmem, hbuild⟩, rfl⟩
  · intro hall
    unfold LoggerFactory.createAdapters
    have hnil : (config.adapters.map
        (LoggerFactory.buildAdapter config resolver logFile fileCtorOk hasWindow)).filterMap
          (fun r => r.1) = [] := by
      rw [List.filterMap_eq_nil_iff]
      intro a ha
      obtain ⟨name, hmem, rfl⟩ := List.mem_map.mp ha
      exact hall name hmem
    simp [hnil]

/-- Witness for the factory fallback theorem: with only the unknown
adapter name `kinesis` configured, the factory warns about it and
returns exactly one console adapter. -/
theorem LoggerFactory.createAdapters_fallback_witness :
    (LoggerFactory.createAdapters
        { service := "svc", environment := "test", emojis := false,
          adapters := ["kinesis"], level := .INFO } {} none true false).1 =
      [.consoleAdapter (ConsoleAdapter.init (LoggerFactory.consoleOptions
        { service := "svc", environment := "test", emojis := false,
          adapters := ["kinesis"], level := .INFO } {})).1] ∧
    FactoryDiagnostic.unknownAdapterWarning "kinesis" ∈
      (LoggerFactory.createAdapters
        { service := "svc", environment := "test", emojis := false,
          adapters := ["kinesis"], level := .INFO } {} none true false).2 := by
  have h := LoggerFactory.createAdapters_fallback
    { service := "svc", environment := "test", emojis := false,
      adapters := ["kinesis"], level := .INFO } {} none true false
  refine ⟨h.2.2 ?_, (h.2.1 "kinesis" (by decide) (by decide) (by decide) (by decide)).2⟩
  intro name hmem
  have : name = "kinesis" := by simpa using hmem
  subst this
  decide

/-- C2: error sanitization maps a native exception to its constructor
name, message and stack trace; a string to type `Unknown` with that
string as message; a well-formed object (string `type` and `message`)
passes through keeping only its valid optional fields; `null`,
`undefined` and objects missing the required fields sanitize to nothing,
and for those the dispatched entry's error field is absent (`none`, not
a null or empty record); the sanitizer is total — no input makes it
throw — always yielding either nothing or a well-formed record. -/
theorem Logger.sanitizeError_classification :
    (Logger.sanitizeError .jsNull = none ∧ Logger.sanitizeError .jsUndefined = none) ∧
    (∀ n m stk, Logger.sanitizeError (.jsErrorInstance n m stk) =
      some { type := n, message := m, stackTrace := stk }) ∧
    (∀ s, Logger.sanitizeError (.jsString s) = some { type := "Unknown", message := s }) ∧
    (∀ (o : RawErrorObject) (t m : String), o.typeField = .str t → o.messageField = .str m →
      Logger.sanitizeError (.jsObject o) =
        some { type := t, message := m, stackTrace := o.stackTraceField.toOption,
               code := o.codeField.toOption, context := o.contextField.toOption }) ∧
    (∀ o : RawErrorObject, ((∀ t, o.typeField ≠ .str t) ∨ (∀ m, o.messageField ≠ .str m)) →
      Logger.sanitizeError (.jsObject o) = none) ∧
    (∀ e, Logger.sanitizeError e = none ∨ ∃ d, Logger.sanitizeError e = some d) ∧
    (∀ (st : LoggerState) (level : LogLevel) (message : String) (d : PartialLogEntry)
        (rId rCorr : HexRng) (now : Nat) (e : ErrorInput),
      Logger.sanitizeError e = none →
      (Logger.log st level message (some { d with error := some e }) rId rCorr now).error
        = none) := by
  refine ⟨⟨rfl, rfl⟩, fun n m stk => rfl, fun s => rfl, ?_, ?_, ?_, ?_⟩
  · intro o t m ht hm
    simp [Logger.sanitizeError, ht, hm]
  · intro o h
    cases ht : o.typeField with
    | str t =>
      cases hm : o.messageField with
      | str m =>
        rcases h with h | h
        · exact absurd ht (h t)
        · exact absurd hm (h m)
      | missing => simp [Logger.sanitizeError, ht, hm]
      | notStr => simp [Logger.sanitizeError, ht, hm]
    | missing => cases hm : o.messageField <;> simp [Logger.sanitizeError, ht, hm]
    | notStr => cases hm : o.messageField <;> simp [Logger.sanitizeError, ht, hm]
  · intro e
    cases h : Logger.sanitizeError e with
    | none => exact Or.inl rfl
    | some d => exact Or.inr ⟨d, rfl⟩
  · intro st level message d rId rCorr now e hs
    show (if e.jsTruthy then Logger.sanitizeError e else none) = none
    rw [hs]
    split <;> rfl

/-- Witness for the sanitization theorem: a well-formed object keeps
only its valid optional fields, an empty object sanitizes to nothing,
and a log call whose data carries a null error dispatches an entry with
the error field absent. -/
theorem Logger.sanitizeError_classification_witness :
    Logger.sanitizeError (.jsObject
        { typeField := .str "TypeError", messageField := .str "bad input",
          stackTraceField := .notStr, codeField := .missing,
          contextField := .nullValue }) =
      some { type := "TypeError", message := "bad input" } ∧
    Logger.sanitizeError (.jsObject {}) = none ∧
    (Logger.log { service := "svc", environment := "test" } .ERROR "boom"
        (some { error := some .jsNull }) (fun _ => 0) (fun _ => 0) 0).error = none := by
  have h := Logger.sanitizeError_classification
  refine ⟨?_, h.2.2.2.2.1 {} (Or.inl ?_), ?_⟩
  · have := h.2.2.2.1
      { typeField := .str "TypeError", messageField := .str "bad input",
        stackTraceField := .notStr, codeField := .missing, contextField := .nullValue }
      "TypeError" "bad input" rfl rfl
    simpa [JsStrField.toOption, JsObjField.toOption] using this
  · intro t ht
    exact JsStrField.noConfusion ht
  · exact h.2.2.2.2.2.2 { service := "svc", environment := "test" } .ERROR "boom" {}
      (fun _ => 0) (fun _ => 0) 0 .jsNull rfl

/-- C1 counterexample: a ConsoleAdapter constructed with
`enableEmojis=false` given an entry with `includeEmoji=true` and the
predefined event SYSTEM_START leaves the message without any emoji — the
constructor disabled the resolver, so `formatMessage` returns the
message unchanged — contradicting the claim that entry
`includeEmoji=true` forces the emoji prefix. -/
theorem emoji_true_override_counterexample :
    ConsoleAdapter.messagePart
        (ConsoleAdapter.init { enableEmojis := some false, logLevel := some .INFO }).1
        (ConsoleAdapter.init { enableEmojis := some false, logLevel := some .INFO }).2
        { message := some "System starting", event := some "SYSTEM_START",
          includeEmoji := .val true } = "System starting" ∧
    ConsoleAdapter.messagePart
        (ConsoleAdapter.init { enableEmojis := some false, logLevel := some .INFO }).1
        (ConsoleAdapter.init { enableEmojis := some false, logLevel := some .INFO }).2
        { message := some "System starting", event := some "SYSTEM_START",
          includeEmoji := .val true } ≠ "🚀 System starting" := by
  constructor <;> decide

/-- C1, amended: entry `includeEmoji=false` suppresses the emoji prefix
even when the adapter was constructed with `enableEmojis=true`; entry
`includeEmoji` absent or null defers to the adapter's own setting; and
entry `includeEmoji=true` takes the emoji path but the prefix is still
gated by the shared resolver, whose enabled flag the constructor set to
the adapter's `enableEmojis` — so on an adapter constructed with
`enableEmojis=false` it does not force the prefix and the message is
left plain.  Both adapters behave alike. -/
theorem emoji_override_precedence_amended (co : ConsoleAdapterOptions)
    (fo : FileAdapterOptions) (e : LogEntry) :
    ((e.includeEmoji = .val false →
        ConsoleAdapter.messagePart (ConsoleAdapter.init co).1 (ConsoleAdapter.init co).2 e =
          ConsoleAdapter.messagePartPlain (ConsoleAdapter.init co).1 e) ∧
      ((e.includeEmoji = .absent ∨ e.includeEmoji = .null) →
        ConsoleAdapter.messagePart (ConsoleAdapter.init co).1 (ConsoleAdapter.init co).2 e =
          ConsoleAdapter.messagePart (ConsoleAdapter.init co).1 (ConsoleAdapter.init co).2
            { e with includeEmoji := .val (ConsoleAdapter.init co).1.enableEmojis }) ∧
      (e.includeEmoji = .val true → co.enableEmojis = some false →
        ConsoleAdapter.messagePart (ConsoleAdapter.init co).1 (ConsoleAdapter.init co).2 e =
          ConsoleAdapter.messagePartPlain (ConsoleAdapter.init co).1 e)) ∧
    ∀ pr : FileAdapterConfig × EmojiResolver, FileAdapter.init fo = some pr →
      (e.includeEmoji = .val false →
        FileAdapter.formatMessage pr.1 pr.2 e = e.message.getD "") ∧
      ((e.includeEmoji = .absent ∨ e.includeEmoji = .null) →
        FileAdapter.formatMessage pr.1 pr.2 e =
          FileAdapter.formatMessage pr.1 pr.2
            { e with includeEmoji := .val pr.1.enableEmojis }) ∧
      (e.includeEmoji = .val true → fo.enableEmojis = some false →
        FileAdapter.formatMessage pr.1 pr.2 e = e.message.getD "") := by
  have hconsoleEnabled : (ConsoleAdapter.init co).2.enabled = co.enableEmojis.getD false := rfl
  refine ⟨⟨?_, ?_, ?_⟩, ?_⟩
  · intro h
    simp [ConsoleAdapter.messagePart, ConsoleAdapter.messagePartPlain, h, TriBool.resolve]
  · intro h
    rcases h with h | h <;>
      simp [ConsoleAdapter.messagePart, ConsoleAdapter.withCorrelation, h, TriBool.resolve]
  · intro h hco
    have hren : (ConsoleAdapter.init co).2.enabled = false := by
      rw [hconsoleEnabled, hco]
      rfl
    simp only [ConsoleAdapter.messagePart, ConsoleAdapter.messagePartPlain, h, TriBool.resolve]
    by_cases hev : strTruthy e.event
    · simp [hev, EmojiResolver.formatMessage_of_not_enabled _ _ _ _ hren]
    · simp [hev]
  · intro pr hpr
    have hen : pr.2.enabled = fo.enableEmojis.getD false := by
      unfold FileAdapter.init at hpr
      split at hpr
      · exact absurd hpr (by simp)
      · rw [Option.some_inj] at hpr
        rw [← hpr]
        rfl
    refine ⟨?_, ?_, ?_⟩
    · intro h
      simp [FileAdapter.formatMessage, h, TriBool.resolve]
    · intro h
      rcases h with h | h <;> simp [FileAdapter.formatMessage, h, TriBool.resolve]
    · intro h hfo
      have hren : pr.2.enabled = false := by rw [hen, hfo]; rfl
      simp only [FileAdapter.formatMessage, h, TriBool.resolve]
      by_cases hev : strTruthy e.event
      · simp [hev, EmojiResolver.formatMessage_of_not_enabled _ _ _ _ hren]
      · simp [hev]

/-- Witness for the amended precedence theorem: with `enableEmojis=true`
on the console adapter, an entry that sets `includeEmoji=false` is left
plain, and with `enableEmojis=false` on the file adapter an entry with
`includeEmoji=true` is also left plain. -/
theorem emoji_override_precedence_amended_witness :
    ConsoleAdapter.messagePart
        (ConsoleAdapter.init { enableEmojis := some true }).1
        (ConsoleAdapter.init { enableEmojis := some true }).2
        { message := some "hello", event := some "SYSTEM_START",
          includeEmoji := .val false } =
      ConsoleAdapter.messagePartPlain (ConsoleAdapter.init { enableEmojis := some true }).1
        { message := some "hello", event := some "SYSTEM_START",
          includeEmoji := .val false } ∧
    ∀ pr : FileAdapterConfig × EmojiResolver,
      FileAdapter.init { filePath := "./logs/app.log", enableEmojis := some false } = some pr →
      FileAdapter.formatMessage pr.1 pr.2
          { message := some "hello", event := some "SYSTEM_START",
            includeEmoji := .val true } = "hello" := by
  constructor
  · exact (emoji_override_precedence_amended { enableEmojis := some true }
      { filePath := "./logs/app.log", enableEmojis := some false }
      { message := some "hello", event := some "SYSTEM_START",
        includeEmoji := .val false }).1.1 rfl
  · intro pr hpr
    exact ((emoji_override_precedence_amended { enableEmojis := some true }
      { filePath := "./logs/app.log", enableEmojis := some false }
      { message := some "hello", event := some "SYSTEM_START",
        includeEmoji := .val true }).2 pr hpr).2.2 rfl rfl

end ArtissistLogger
